import Mathlib

/-!
Verification development for the Argus CPU display service.

The service reads CPU-temperature records from a shared-memory table
published by an external monitor and pushes the clamped integer value to a
USB HID display, with a debounce policy and a mandatory 15-second refresh.

The shallow embedding below mirrors `src/argus-cpu-display-service.py`:
machine values are modelled as `Nat`/`Int`, floating-point sensor values as
`ℚ`, Python exceptions as `Except PyError`, the bytearray packet as a
`List Nat`, wall-clock time as an explicit `ℚ` argument, and device-write
success as an explicit `Bool` argument.
-/

/-- Constants lifted verbatim from the source. -/
def ARGUS_SIGNATURE : Nat := 0x4D677241

def SENSOR_TYPE_CPU_TEMPERATURE : Nat := 6

def SENSOR_TYPE_CPU_TEMPERATURE_ADDITIONAL : Nat := 7

def MAX_SENSOR_COUNT : Nat := 512

def USB_PACKET_SIZE : Nat := 65

def USB_PACKET_REPORT_ID : Nat := 0x00

def USB_PACKET_COMMAND : Nat := 0x10

def TEMP_MIN : Int := 0

def TEMP_MAX : Int := 99

def MANDATORY_UPDATE_INTERVAL : ℚ := 15

def ARGUS_CONNECTION_MAX_RETRIES : Nat := 6

/-- Python exceptions that the modelled code paths can raise. -/
inductive PyError where
  | typeError : PyError
  | indexError : PyError
deriving DecidableEq

/-- One entry of the `SensorData` array (`ArgusMonitorSensorData`). -/
structure SensorRecord where
  SensorType : Nat
  Label : String
  UnitString : String
  Value : ℚ
  DataIndex : Nat
  SensorIndex : Nat
deriving DecidableEq

/-- The shared-memory table (`ArgusMonitorData`).  The fixed-size arrays are
modelled as total functions; the 512-entry bound of `SensorData` is enforced
by the bounds-checked accessor `sensorAt`, matching ctypes array indexing. -/
structure ArgusMonitorData where
  Signature : Nat
  OffsetForSensorType : Nat → Nat
  SensorCount : Nat → Nat
  TotalSensorCount : Nat
  SensorData : Nat → SensorRecord

/-- Bounds-checked read of `data.SensorData[i]`; ctypes raises `IndexError`
outside the declared array size. -/
def sensorAt (d : ArgusMonitorData) (i : Nat) : Except PyError SensorRecord :=
  if i < MAX_SENSOR_COUNT then .ok (d.SensorData i) else .error .indexError

/-- The mutable fields of `ArgusMonitorAPI` that the claims depend on.
Both start as Python `None`, hence `Option Nat`. -/
structure ArgusMonitorAPIState where
  cpu_temp_offset : Option Nat
  cpu_temp_count : Option Nat
deriving DecidableEq

/-- `ArgusMonitorAPI.__init__` sets both cache fields to `None`. -/
def initAPIState : ArgusMonitorAPIState := ⟨none, none⟩

/-- `ArgusMonitorAPI._cache_sensor_info`: no-op on signature mismatch;
otherwise caches the primary CPU-temperature category's offset/count,
falling back to the additional category when the primary count is zero. -/
def cacheSensorInfo (s : ArgusMonitorAPIState) (d : ArgusMonitorData) :
    ArgusMonitorAPIState :=
  if d.Signature ≠ ARGUS_SIGNATURE then s
  else
    let off := d.OffsetForSensorType SENSOR_TYPE_CPU_TEMPERATURE
    let cnt := d.SensorCount SENSOR_TYPE_CPU_TEMPERATURE
    if cnt = 0 then
      { s with
        cpu_temp_offset :=
          some (d.OffsetForSensorType SENSOR_TYPE_CPU_TEMPERATURE_ADDITIONAL)
        cpu_temp_count :=
          some (d.SensorCount SENSOR_TYPE_CPU_TEMPERATURE_ADDITIONAL) }
    else
      { s with cpu_temp_offset := some off, cpu_temp_count := some cnt }

/-- `ArgusMonitorAPI.get_cpu_temp_raw`.  Mirrors the Python exactly:
`self.cpu_temp_count == 0` is true only when the cache holds the integer 0
(Python's `None == 0` is `False`); the signature is then checked; finally
`sensors[self.cpu_temp_offset]` indexes with the cached offset, raising
`TypeError` when the offset is still `None` and `IndexError` out of range. -/
def get_cpu_temp_raw (s : ArgusMonitorAPIState) (d : ArgusMonitorData) :
    Except PyError (Option ℚ) :=
  if s.cpu_temp_count = some 0 then .ok none
  else if d.Signature ≠ ARGUS_SIGNATURE then .ok none
  else
    match s.cpu_temp_offset with
    | none => .error .typeError
    | some off => do
        let sr ← sensorAt d off
        pure (some sr.Value)

/-- `CPUDisplayService.connect_argus`: builds a fresh API object (running
`_cache_sensor_info` from the initial state) and reports `is_active()`. -/
def connect_argus (d : ArgusMonitorData) : ArgusMonitorAPIState × Bool :=
  (cacheSensorInfo initAPIState d, decide (d.Signature = ARGUS_SIGNATURE))

/-- One entry of the list built by `get_all_cpu_temps`. -/
structure CpuTempEntry where
  label : String
  value : ℚ
  unit : String
  type : String
deriving DecidableEq

/-- The `for i in range(count)` loop of `get_all_cpu_temps`: at loop index
`i` with `k` iterations remaining, read `sensors[offset + i]` and append
one entry per iteration, in order. -/
def collectCpuTemps (d : ArgusMonitorData) (off : Nat) :
    Nat → Nat → Except PyError (List CpuTempEntry)
  | _, 0 => .ok []
  | i, k + 1 => do
      let s ← sensorAt d (off + i)
      let rest ← collectCpuTemps d off (i + 1) k
      pure ({ label := s.Label, value := s.Value, unit := s.UnitString,
              type := "core" } :: rest)

/-- `ArgusMonitorAPI.get_all_cpu_temps`: empty on signature mismatch,
otherwise enumerates only the primary CPU-temperature category. -/
def get_all_cpu_temps (d : ArgusMonitorData) :
    Except PyError (List CpuTempEntry) :=
  if d.Signature ≠ ARGUS_SIGNATURE then .ok []
  else
    collectCpuTemps d (d.OffsetForSensorType SENSOR_TYPE_CPU_TEMPERATURE) 0
      (d.SensorCount SENSOR_TYPE_CPU_TEMPERATURE)

/-- Python's built-in `round`: round half to even (banker's rounding).
Written on the integer numerator/denominator so the definition evaluates by
kernel reduction: `n = x.num / x.den` is `⌊x⌋` (`Rat.floor_def`), the
remainder `r = x.num % x.den` satisfies `x - ⌊x⌋ = r / x.den`, and the
fractional part is compared with `1/2` by comparing `2*r` with `x.den`. -/
def pyRound (x : ℚ) : Int :=
  let n := x.num / (x.den : Int)
  let r := x.num % (x.den : Int)
  if 2 * r < (x.den : Int) then n
  else if (x.den : Int) < 2 * r then n + 1
  else if n % 2 = 0 then n else n + 1

/-- Lines 326–330 of `write_temp`: round the raw value, then clamp the
result to `[TEMP_MIN, TEMP_MAX]`. -/
def clampedTemp (raw : ℚ) : Int :=
  let t := pyRound raw
  if t > TEMP_MAX then TEMP_MAX
  else if t < TEMP_MIN then TEMP_MIN
  else t

/-- The mutable fields of `CPUDisplayService` the claims depend on.  The
`device` handle is abstracted to a connected flag. -/
structure ServiceState where
  packet : List Nat
  last_temp : Int
  next_mandatory_write_time : ℚ
  deviceConnected : Bool
deriving DecidableEq

/-- The packet as `__init__` leaves it: 65 zero bytes with the report ID at
byte 0 and the command code at byte 1. -/
def initPacket : List Nat :=
  ((List.replicate USB_PACKET_SIZE 0).set 0 USB_PACKET_REPORT_ID).set 1
    USB_PACKET_COMMAND

/-- `CPUDisplayService.__init__`: no device, `last_temp = -1`,
`next_mandatory_write_time = 0.0`. -/
def initServiceState : ServiceState :=
  { packet := initPacket
    last_temp := -1
    next_mandatory_write_time := 0
    deviceConnected := false }

/-- `CPUDisplayService.connect_display`: on a successful open, stores the
device handle and resets `next_mandatory_write_time` to `0.0`.  `last_temp`
is not touched.  On failure the exception is caught and `False` returned. -/
def connect_display (s : ServiceState) (openOk : Bool) : ServiceState × Bool :=
  if openOk then
    ({ s with deviceConnected := true, next_mandatory_write_time := 0 }, true)
  else (s, false)

/-- Result of one `write_temp` call: the updated service state, the boolean
return value, and the packet handed to `device.write` (none when no device
write was attempted). -/
structure WriteResult where
  state : ServiceState
  success : Bool
  attempted : Option (List Nat)

/-- `CPUDisplayService.write_temp`.  `now` models `time.time()` at the call
and `deviceOk` models whether `self.device.write` succeeds or raises.  Note
the source order: `self.last_temp` and `self.packet[2]` are assigned before
the device write, while `next_mandatory_write_time` is assigned after it. -/
def write_temp (s : ServiceState) (raw : ℚ) (force : Bool) (now : ℚ)
    (deviceOk : Bool) : WriteResult :=
  if s.deviceConnected = false then ⟨s, false, none⟩
  else
    let temp_int := clampedTemp raw
    if force = false ∧ temp_int = s.last_temp then ⟨s, true, none⟩
    else
      let s1 := { s with
        last_temp := temp_int
        packet := s.packet.set 2 temp_int.toNat }
      if deviceOk then
        ⟨{ s1 with next_mandatory_write_time := now + MANDATORY_UPDATE_INTERVAL },
         true, some s1.packet⟩
      else ⟨s1, false, some s1.packet⟩

/-- One iteration of `CPUDisplayService.update_loop`: poll the raw
temperature; when available, compute `force = time.time() >=
next_mandatory_write_time` and call `write_temp`. -/
def update_tick (s : ServiceState) (api : ArgusMonitorAPIState)
    (d : ArgusMonitorData) (now : ℚ) (deviceOk : Bool) : WriteResult :=
  match get_cpu_temp_raw api d with
  | .ok (some raw) =>
      write_temp s raw (decide (s.next_mandatory_write_time ≤ now)) now deviceOk
  | _ => ⟨s, true, none⟩

/-- The `for attempt in range(ARGUS_CONNECTION_MAX_RETRIES)` loop of
`CPUDisplayService.start`, at attempt index `i` with `fuel` iterations of
the range left (so `fuel = ARGUS_CONNECTION_MAX_RETRIES - i`); `outcome k`
tells whether the `(k+1)`-th `connect_argus` call succeeds.  A failed
attempt retries when further iterations remain (the `attempt <
ARGUS_CONNECTION_MAX_RETRIES - 1` test); the last failure returns `False`.
Returns the total number of `connect_argus` calls and whether the loop
exited by `break` (success). -/
def argusLoop (outcome : Nat → Bool) : Nat → Nat → Nat × Bool
  | i, 0 => (i, false)
  | i, fuel + 1 =>
      if outcome i then (i + 1, true)
      else if 0 < fuel then argusLoop outcome (i + 1) fuel
      else (i + 1, false)

/-- The complete retry phase of `CPUDisplayService.start`. -/
def argusPhase (outcome : Nat → Bool) : Nat × Bool :=
  argusLoop outcome 0 ARGUS_CONNECTION_MAX_RETRIES

/-- `CPUDisplayService.start`: run the retry loop; only on success proceed
to `connect_display`.  Returns (number of `connect_argus` calls, whether
display connection was attempted, the overall return value). -/
def start (outcome : Nat → Bool) (displayOk : Bool) : Nat × Bool × Bool :=
  match argusPhase outcome with
  | (n, true) => (n, true, displayOk)
  | (n, false) => (n, false, false)

/-- Example table: signature mismatch (zero-filled region). -/
def regionInactive : ArgusMonitorData :=
  { Signature := 0
    OffsetForSensorType := fun _ => 0
    SensorCount := fun _ => 0
    TotalSensorCount := 0
    SensorData := fun _ => ⟨0, "", "", 0, 0, 0⟩ }

/-- Example table: valid signature but no CPU-temperature sensors in either
category. -/
def regionActiveEmpty : ArgusMonitorData :=
  { Signature := ARGUS_SIGNATURE
    OffsetForSensorType := fun _ => 0
    SensorCount := fun _ => 0
    TotalSensorCount := 0
    SensorData := fun _ => ⟨0, "", "", 0, 0, 0⟩ }

/-- Example table: valid signature, one primary CPU-temperature sensor at
offset 0 reading 55 °C. -/
def regionActiveOne : ArgusMonitorData :=
  { Signature := ARGUS_SIGNATURE
    OffsetForSensorType := fun _ => 0
    SensorCount := fun t => if t = SENSOR_TYPE_CPU_TEMPERATURE then 1 else 0
    TotalSensorCount := 1
    SensorData := fun _ => ⟨SENSOR_TYPE_CPU_TEMPERATURE, "CPU", "C", 55, 0, 0⟩ }

/-- Example table: valid signature, empty primary category, one
additional-category CPU-temperature sensor at offset 3 reading 60 °C. -/
def regionFallback : ArgusMonitorData :=
  { Signature := ARGUS_SIGNATURE
    OffsetForSensorType :=
      fun t => if t = SENSOR_TYPE_CPU_TEMPERATURE_ADDITIONAL then 3 else 0
    SensorCount :=
      fun t => if t = SENSOR_TYPE_CPU_TEMPERATURE_ADDITIONAL then 1 else 0
    TotalSensorCount := 4
    SensorData := fun i =>
      if i = 3 then ⟨SENSOR_TYPE_CPU_TEMPERATURE_ADDITIONAL, "CPU1", "C", 60, 0, 0⟩
      else ⟨0, "", "", 0, 0, 0⟩ }

/-- Example service state: display connected, nothing written yet. -/
def sConn : ServiceState := { initServiceState with deviceConnected := true }

/-- Example service state: display connected mid-run, 42 already written
and a pending mandatory-refresh deadline. -/
def sMidRun : ServiceState :=
  { initServiceState with
    deviceConnected := true
    last_temp := 42
    next_mandatory_write_time := 50 }

/-- States of `CPUDisplayService` reachable over the life of the service:
the initial state, followed by any interleaving of display (re)connections,
direct `write_temp` calls, and poll-loop ticks. -/
inductive Reachable : ServiceState → Prop where
  | init : Reachable initServiceState
  | connect (s : ServiceState) (openOk : Bool) :
      Reachable s → Reachable (connect_display s openOk).1
  | write (s : ServiceState) (raw : ℚ) (force : Bool) (now : ℚ)
      (deviceOk : Bool) :
      Reachable s → Reachable (write_temp s raw force now deviceOk).state
  | tick (s : ServiceState) (api : ArgusMonitorAPIState)
      (d : ArgusMonitorData) (now : ℚ) (deviceOk : Bool) :
      Reachable s → Reachable (update_tick s api d now deviceOk).state

/-- The remainder representation of the fractional part used by `pyRound`:
`x - ⌊x⌋ = (x.num % x.den) / x.den`. -/
lemma sub_floor_eq_emod_div (x : ℚ) :
    x - (⌊x⌋ : ℚ) = ((x.num % (x.den : Int) : Int) : ℚ) / ((x.den : ℕ) : ℚ) := by
  have hd0 : ((x.den : ℕ) : ℚ) ≠ 0 := Nat.cast_ne_zero.mpr x.den_nz
  rw [eq_div_iff hd0]
  have hnum : x * ((x.den : ℕ) : ℚ) = (x.num : ℚ) := by
    nth_rewrite 1 [← Rat.num_div_den x]
    exact div_mul_cancel₀ _ hd0
  have hfl : (⌊x⌋ : Int) = x.num / (x.den : Int) := Rat.floor_def
  push_cast [Int.emod_def]
  rw [← hfl, sub_mul, hnum]
  ring

/-- When the fractional part is below one half, `pyRound` is the floor. -/
lemma pyRound_fract_lt (x : ℚ) (h : x - (⌊x⌋ : ℚ) < 1 / 2) :
    pyRound x = ⌊x⌋ := by
  have hdpos : ((0 : ℚ)) < ((x.den : ℕ) : ℚ) := by exact_mod_cast x.pos
  have h2 : ((x.num % (x.den : Int) : Int) : ℚ) / ((x.den : ℕ) : ℚ) < 1 / 2 := by
    rw [← sub_floor_eq_emod_div]; exact h
  rw [div_lt_div_iff₀ hdpos (by norm_num : (0:ℚ) < 2)] at h2
  have key : 2 * (x.num % (x.den : Int)) < (x.den : Int) := by
    have : ((2 * (x.num % (x.den : Int)) : Int) : ℚ) < ((x.den : ℕ) : ℚ) := by
      push_cast
      linarith
    exact_mod_cast this
  simp only [pyRound]
  rw [if_pos key]
  exact Rat.floor_def.symm

/-- When the fractional part is above one half, `pyRound` rounds up. -/
lemma pyRound_fract_gt (x : ℚ) (h : 1 / 2 < x - (⌊x⌋ : ℚ)) :
    pyRound x = ⌊x⌋ + 1 := by
  have hdpos : ((0 : ℚ)) < ((x.den : ℕ) : ℚ) := by exact_mod_cast x.pos
  have h2 : 1 / 2 < ((x.num % (x.den : Int) : Int) : ℚ) / ((x.den : ℕ) : ℚ) := by
    rw [← sub_floor_eq_emod_div]; exact h
  rw [div_lt_div_iff₀ (by norm_num : (0:ℚ) < 2) hdpos] at h2
  have key : (x.den : Int) < 2 * (x.num % (x.den : Int)) := by
    have : ((x.den : ℕ) : ℚ) < ((2 * (x.num % (x.den : Int)) : Int) : ℚ) := by
      push_cast
      linarith
    exact_mod_cast this
  simp only [pyRound]
  rw [if_neg (by omega), if_pos key]
  rw [Rat.floor_def]

/-- When the fractional part is exactly one half, `pyRound` goes to the
even neighbour. -/
lemma pyRound_fract_eq (x : ℚ) (h : x - (⌊x⌋ : ℚ) = 1 / 2) :
    pyRound x = if ⌊x⌋ % 2 = 0 then ⌊x⌋ else ⌊x⌋ + 1 := by
  have hdpos : ((0 : ℚ)) < ((x.den : ℕ) : ℚ) := by exact_mod_cast x.pos
  have h2 : ((x.num % (x.den : Int) : Int) : ℚ) / ((x.den : ℕ) : ℚ) = 1 / 2 := by
    rw [← sub_floor_eq_emod_div]; exact h
  rw [div_eq_div_iff hdpos.ne' (by norm_num : (2:ℚ) ≠ 0)] at h2
  have key : 2 * (x.num % (x.den : Int)) = (x.den : Int) := by
    have : ((2 * (x.num % (x.den : Int)) : Int) : ℚ) = ((x.den : ℕ) : ℚ) := by
      push_cast
      linarith
    exact_mod_cast this
  simp only [pyRound]
  rw [if_neg (by omega), if_neg (by omega)]
  rw [Rat.floor_def]

/-- The clamped value never drops below `TEMP_MIN`. -/
lemma clampedTemp_nonneg (raw : ℚ) : TEMP_MIN ≤ clampedTemp raw := by
  simp only [clampedTemp, TEMP_MIN, TEMP_MAX]
  split_ifs <;> omega

/-- The clamped value never exceeds `TEMP_MAX`. -/
lemma clampedTemp_le (raw : ℚ) : clampedTemp raw ≤ TEMP_MAX := by
  simp only [clampedTemp, TEMP_MIN, TEMP_MAX]
  split_ifs <;> omega

/-- C2: `write_temp` computes its output value by rounding the raw reading
to the nearest integer and then clamping to `[TEMP_MIN, TEMP_MAX] = [0, 99]`:
a rounded value already in range is kept, a rounded value above the range
yields 99 (e.g. raw 150), a rounded value below yields 0 (e.g. raw −10). -/
theorem spec_c2_round_then_clamp (raw : ℚ) :
    (TEMP_MIN ≤ pyRound raw → pyRound raw ≤ TEMP_MAX →
      clampedTemp raw = pyRound raw) ∧
    (TEMP_MAX < pyRound raw → clampedTemp raw = TEMP_MAX) ∧
    (pyRound raw < TEMP_MIN → clampedTemp raw = TEMP_MIN) ∧
    clampedTemp 150 = 99 ∧ clampedTemp (-10) = 0 := by
  refine ⟨?_, ?_, ?_, by decide, by decide⟩ <;>
    · intros
      simp only [clampedTemp, TEMP_MIN, TEMP_MAX] at *
      split_ifs <;> omega

/-- Witness for C2 at concrete inputs: raw 42 is in range and kept as its
rounded value. -/
theorem spec_c2_round_then_clamp_witness : clampedTemp 42 = pyRound 42 :=
  (spec_c2_round_then_clamp 42).1 (by decide) (by decide)

/-- C9: on inputs exactly halfway between two integers, `write_temp`'s
rounding step rounds half to even, as Python's built-in `round` does:
`k + 1/2` rounds to `k` when `k` is even and to `k + 1` when `k` is odd;
in particular 42.5 clamps to 42 and 43.5 clamps to 44. -/
theorem spec_c9_round_half_to_even (k : Int) :
    pyRound ((k : ℚ) + 1 / 2) = (if k % 2 = 0 then k else k + 1) ∧
    clampedTemp (mkRat 85 2) = 42 ∧ clampedTemp (mkRat 87 2) = 44 := by
  refine ⟨?_, by decide, by decide⟩
  have h0 : ⌊(1 / 2 : ℚ)⌋ = 0 := by
    rw [Int.floor_eq_zero_iff]
    constructor <;> norm_num
  have hfloor : ⌊(k : ℚ) + 1 / 2⌋ = k := by
    rw [add_comm, Int.floor_add_int, h0, zero_add]
  have hfr : ((k : ℚ) + 1 / 2) - (⌊(k : ℚ) + 1 / 2⌋ : ℚ) = 1 / 2 := by
    rw [hfloor]; ring
  rw [pyRound_fract_eq _ hfr, hfloor]

/-- C3 as stated is false: with the cached category location never
populated (both cache fields `None`) and a table whose signature is valid,
`get_cpu_temp_raw` does not return "unavailable" — `None == 0` is false in
Python, the signature check passes, and `sensors[None]` raises a
`TypeError`. -/
theorem spec_c3_counterexample :
    get_cpu_temp_raw initAPIState regionActiveEmpty = .error .typeError ∧
    get_cpu_temp_raw initAPIState regionActiveEmpty ≠ .ok none := by
  have h0 : get_cpu_temp_raw initAPIState regionActiveEmpty =
      .error .typeError := rfl
  refine ⟨h0, ?_⟩
  rw [h0]
  intro h
  exact Except.noConfusion h

/-- C3 amended: `get_cpu_temp_raw` returns "unavailable" whenever the
table's signature differs from the magic constant (regardless of every
other field), and likewise when the cached count is the integer zero;
however, when the cache was never populated it returns "unavailable" only
through the signature check — with a valid signature it instead raises a
`TypeError`; with a populated cache (nonzero count, in-bounds offset) and a
valid signature it returns the value at the cached offset. -/
theorem spec_c3_amended (api : ArgusMonitorAPIState) (d : ArgusMonitorData) :
    (d.Signature ≠ ARGUS_SIGNATURE → get_cpu_temp_raw api d = .ok none) ∧
    (api.cpu_temp_count = some 0 → get_cpu_temp_raw api d = .ok none) ∧
    (api.cpu_temp_count = none → api.cpu_temp_offset = none →
      d.Signature = ARGUS_SIGNATURE →
      get_cpu_temp_raw api d = .error .typeError) ∧
    (∀ c off, api.cpu_temp_count = some c → c ≠ 0 →
      api.cpu_temp_offset = some off → d.Signature = ARGUS_SIGNATURE →
      off < MAX_SENSOR_COUNT →
      get_cpu_temp_raw api d = .ok (some ((d.SensorData off).Value))) := by
  refine ⟨?_, ?_, ?_, ?_⟩
  · intro hsig
    simp only [get_cpu_temp_raw, if_pos hsig]
    split <;> rfl
  · intro hc
    simp [get_cpu_temp_raw, hc]
  · intro hc hoff hsig
    simp [get_cpu_temp_raw, hc, hoff, hsig]
  · intro c off hc hcne hoff hsig hlt
    have : api.cpu_temp_count ≠ some 0 := by simp [hc, hcne]
    simp [get_cpu_temp_raw, this, hsig, hoff, sensorAt, hlt, Except.bind]

/-- Witness for C3 amended: a populated cache together with an inactive
table yields "unavailable". -/
theorem spec_c3_amended_witness :
    get_cpu_temp_raw (connect_argus regionActiveOne).1 regionInactive = .ok none :=
  (spec_c3_amended (connect_argus regionActiveOne).1 regionInactive).1 (by decide)

/-- C4 as stated is false: on a failed device write the last-written value
is not left unchanged.  Concretely, from a freshly connected state
(`last_temp = -1`) a call with raw 42 whose device write fails reports
failure but has already set `last_temp` to 42. -/
theorem spec_c4_counterexample :
    (write_temp sConn 42 false 100 false).success = false ∧
    (write_temp sConn 42 false 100 false).state.last_temp = 42 ∧
    sConn.last_temp = -1 ∧
    (write_temp sConn 42 false 100 false).state.last_temp ≠ sConn.last_temp := by
  refine ⟨by decide, by decide, by decide, by decide⟩

/-- C4 amended: when the debounce check does not skip the write, the
mandatory-refresh timestamp is updated only on a successful device write —
on failure `write_temp` reports failure and the timestamp is unchanged —
but the last-written value is assigned before the device write is
attempted, so even a failed call leaves `last_temp` equal to the clamped
value rather than its previous contents. -/
theorem spec_c4_amended (s : ServiceState) (raw : ℚ) (force : Bool) (now : ℚ)
    (hdev : s.deviceConnected = true)
    (hns : ¬(force = false ∧ clampedTemp raw = s.last_temp)) :
    ((write_temp s raw force now false).success = false ∧
     (write_temp s raw force now false).state.next_mandatory_write_time =
       s.next_mandatory_write_time ∧
     (write_temp s raw force now false).state.last_temp = clampedTemp raw) ∧
    ((write_temp s raw force now true).success = true ∧
     (write_temp s raw force now true).state.next_mandatory_write_time =
       now + MANDATORY_UPDATE_INTERVAL ∧
     (write_temp s raw force now true).state.last_temp = clampedTemp raw) := by
  simp [write_temp, hdev, hns]

/-- Witness for C4 amended: the failed-write branch at a concrete state. -/
theorem spec_c4_amended_witness :
    (write_temp sConn 42 false 100 false).success = false ∧
    (write_temp sConn 42 false 100 false).state.next_mandatory_write_time =
      sConn.next_mandatory_write_time :=
  ⟨(spec_c4_amended sConn 42 false 100 (by decide) (by decide)).1.1,
   (spec_c4_amended sConn 42 false 100 (by decide) (by decide)).1.2.1⟩

/-- C5: at connect time with an active table, a zero count in the primary
CPU-temperature category makes the source cache the additional category's
offset and count instead; when that count is also zero the connection still
reports success and every later `get_cpu_temp_raw` call returns
"unavailable" (never an error), whatever the table then contains. -/
theorem spec_c5_category_fallback (d : ArgusMonitorData)
    (hsig : d.Signature = ARGUS_SIGNATURE)
    (hzero : d.SensorCount SENSOR_TYPE_CPU_TEMPERATURE = 0) :
    (connect_argus d).1.cpu_temp_offset =
      some (d.OffsetForSensorType SENSOR_TYPE_CPU_TEMPERATURE_ADDITIONAL) ∧
    (connect_argus d).1.cpu_temp_count =
      some (d.SensorCount SENSOR_TYPE_CPU_TEMPERATURE_ADDITIONAL) ∧
    (connect_argus d).2 = true ∧
    (d.SensorCount SENSOR_TYPE_CPU_TEMPERATURE_ADDITIONAL = 0 →
      ∀ d2 : ArgusMonitorData,
        get_cpu_temp_raw (connect_argus d).1 d2 = .ok none) := by
  refine ⟨?_, ?_, ?_, ?_⟩
  · simp [connect_argus, cacheSensorInfo, hsig, hzero]
  · simp [connect_argus, cacheSensorInfo, hsig, hzero]
  · simp [connect_argus, hsig]
  · intro hzero2 d2
    simp [connect_argus, cacheSensorInfo, hsig, hzero, get_cpu_temp_raw, hzero2]

/-- Witness for C5: the doubly-empty active table connects successfully and
reads as unavailable afterwards, even against a table that now has data. -/
theorem spec_c5_category_fallback_witness :
    (connect_argus regionActiveEmpty).2 = true ∧
    get_cpu_temp_raw (connect_argus regionActiveEmpty).1 regionActiveOne =
      .ok none :=
  ⟨(spec_c5_category_fallback regionActiveEmpty (by decide) (by decide)).2.2.1,
   (spec_c5_category_fallback regionActiveEmpty (by decide) (by decide)).2.2.2
     (by decide) regionActiveOne⟩

/-- Debounce characterisation of `write_temp`: with a connected device, no
packet is handed to the device exactly when `force` is false and the
clamped value equals the tracked `last_temp`. -/
lemma write_temp_attempted_none_iff (s : ServiceState) (raw : ℚ) (force : Bool)
    (now : ℚ) (deviceOk : Bool) (hdev : s.deviceConnected = true) :
    (write_temp s raw force now deviceOk).attempted = none ↔
      (force = false ∧ clampedTemp raw = s.last_temp) := by
  simp only [write_temp, hdev]
  split_ifs with h1 h2 h3 <;> simp_all

/-- On the skip branch `write_temp` returns success and leaves the state
untouched. -/
lemma write_temp_skip (s : ServiceState) (raw : ℚ) (force : Bool) (now : ℚ)
    (deviceOk : Bool) (hdev : s.deviceConnected = true)
    (h : force = false ∧ clampedTemp raw = s.last_temp) :
    write_temp s raw force now deviceOk = ⟨s, true, none⟩ := by
  simp [write_temp, hdev, h]

/-- On the write branch `write_temp` assigns `last_temp` and byte 2 of the
packet before the device write, hands the updated packet to the device, and
refreshes the mandatory deadline only when the device write succeeds. -/
lemma write_temp_write (s : ServiceState) (raw : ℚ) (force : Bool) (now : ℚ)
    (deviceOk : Bool) (hdev : s.deviceConnected = true)
    (hns : ¬(force = false ∧ clampedTemp raw = s.last_temp)) :
    write_temp s raw force now deviceOk =
      ⟨{ s with
          last_temp := clampedTemp raw
          packet := s.packet.set 2 (clampedTemp raw).toNat
          next_mandatory_write_time :=
            if deviceOk then now + MANDATORY_UPDATE_INTERVAL
            else s.next_mandatory_write_time },
        deviceOk, some (s.packet.set 2 (clampedTemp raw).toNat)⟩ := by
  cases deviceOk <;> simp [write_temp, hdev, hns]

/-- C8 as stated is false: a successful `connect_display` resets only the
mandatory-refresh timestamp; the last-written value keeps its previous
contents (42 here) instead of returning to its initial value (−1). -/
theorem spec_c8_counterexample :
    (connect_display sMidRun true).2 = true ∧
    (connect_display sMidRun true).1.next_mandatory_write_time = 0 ∧
    (connect_display sMidRun true).1.last_temp = 42 ∧
    initServiceState.last_temp = -1 ∧
    (connect_display sMidRun true).1.last_temp ≠ initServiceState.last_temp := by
  refine ⟨by decide, by decide, by decide, by decide, by decide⟩

/-- C8 amended: a successful display (re)connection resets the
mandatory-refresh deadline to 0 but leaves the last-written value as it
was.  The first write after a reconnect is still never skipped by the
debounce comparison: with the deadline at 0 and a nonnegative clock, the
first tick with an available reading is forced. -/
theorem spec_c8_amended (s : ServiceState) :
    ((connect_display s true).2 = true ∧
     (connect_display s true).1.next_mandatory_write_time = 0 ∧
     (connect_display s true).1.last_temp = s.last_temp) ∧
    (∀ (api : ArgusMonitorAPIState) (d : ArgusMonitorData) (now raw : ℚ)
       (deviceOk : Bool),
      0 ≤ now →
      get_cpu_temp_raw api d = .ok (some raw) →
      (update_tick (connect_display s true).1 api d now deviceOk).attempted ≠
        none) := by
  have hcd : connect_display s true =
      ({ s with deviceConnected := true, next_mandatory_write_time := 0 },
        true) := by
    simp [connect_display]
  refine ⟨by simp [hcd], ?_⟩
  intro api d now raw deviceOk hnow hget
  rw [hcd]
  simp only [update_tick, hget]
  intro hnone
  rw [write_temp_attempted_none_iff _ _ _ _ _ rfl] at hnone
  rw [decide_eq_false_iff_not] at hnone
  exact hnone.1 hnow

/-- Witness for C8 amended: after reconnecting mid-run, the very next tick
with an available reading performs a device write. -/
theorem spec_c8_amended_witness :
    (update_tick (connect_display sMidRun true).1
        (connect_argus regionActiveOne).1 regionActiveOne 100 true).attempted ≠
      none :=
  (spec_c8_amended sMidRun).2 (connect_argus regionActiveOne).1 regionActiveOne
    100 55 true (by decide) (by rfl)

/-- C10: `get_all_cpu_temps` never applies the additional-category
fallback: on an active table whose primary CPU-temperature category is
empty it returns the empty list, even though the additional category is
non-empty and `get_cpu_temp_raw` (through the connect-time cache) reports
the reading at the cached fallback location. -/
theorem spec_c10_list_no_fallback (d : ArgusMonitorData)
    (hsig : d.Signature = ARGUS_SIGNATURE)
    (hzero : d.SensorCount SENSOR_TYPE_CPU_TEMPERATURE = 0)
    (hadd : d.SensorCount SENSOR_TYPE_CPU_TEMPERATURE_ADDITIONAL ≠ 0)
    (hoff : d.OffsetForSensorType SENSOR_TYPE_CPU_TEMPERATURE_ADDITIONAL <
      MAX_SENSOR_COUNT) :
    get_all_cpu_temps d = .ok [] ∧
    get_cpu_temp_raw (connect_argus d).1 d =
      .ok (some ((d.SensorData
        (d.OffsetForSensorType
          SENSOR_TYPE_CPU_TEMPERATURE_ADDITIONAL)).Value)) := by
  constructor
  · simp [get_all_cpu_temps, hsig, hzero, collectCpuTemps]
  · simp [connect_argus, cacheSensorInfo, hsig, hzero, get_cpu_temp_raw, hadd,
      sensorAt, hoff, Except.bind]

/-- Witness for C10 at the concrete fallback table: empty enumeration, yet
an available 60 °C reading through the cached fallback location. -/
theorem spec_c10_list_no_fallback_witness :
    get_all_cpu_temps regionFallback = .ok [] ∧
    get_cpu_temp_raw (connect_argus regionFallback).1 regionFallback =
      .ok (some ((regionFallback.SensorData
        (regionFallback.OffsetForSensorType
          SENSOR_TYPE_CPU_TEMPERATURE_ADDITIONAL)).Value)) :=
  spec_c10_list_no_fallback regionFallback (by decide) (by decide) (by decide)
    (by decide)

/-- Running the retry loop from attempt `i`: when every attempt before `N`
fails and attempt `N` succeeds within the remaining fuel, the loop stops
after attempt `N` with success. -/
lemma argusLoop_success (outcome : Nat → Bool) :
    ∀ (fuel i N : Nat), i ≤ N → N < i + fuel →
      (∀ j, i ≤ j → j < N → outcome j = false) → outcome N = true →
      argusLoop outcome i fuel = (N + 1, true) := by
  intro fuel
  induction fuel with
  | zero => intro i N h1 h2 _ _; omega
  | succ f ih =>
      intro i N h1 h2 hfail hN
      rcases Nat.eq_or_lt_of_le h1 with rfl | hlt
      · simp [argusLoop, hN]
      · have hi : outcome i = false := hfail i le_rfl hlt
        have hf : 0 < f := by omega
        simp only [argusLoop, hi, if_pos hf, Bool.false_eq_true, if_false]
        exact ih (i + 1) N (by omega) (by omega)
          (fun j hj1 hj2 => hfail j (by omega) hj2) hN

/-- Running the retry loop from attempt `i`: when every attempt within the
fuel fails, the loop makes exactly `fuel` calls and reports failure. -/
lemma argusLoop_failure (outcome : Nat → Bool) :
    ∀ (fuel i : Nat), 0 < fuel →
      (∀ j, i ≤ j → j < i + fuel → outcome j = false) →
      argusLoop outcome i fuel = (i + fuel, false) := by
  intro fuel
  induction fuel with
  | zero => intro i h0 _; exact absurd h0 (lt_irrefl 0)
  | succ f ih =>
      intro i h0 hfail
      have hi : outcome i = false := hfail i le_rfl (by omega)
      by_cases hf : 0 < f
      · simp only [argusLoop, hi, if_pos hf, Bool.false_eq_true, if_false]
        have h := ih (i + 1) hf (fun j hj1 hj2 => hfail j (by omega) (by omega))
        have harith : i + 1 + f = i + (f + 1) := by omega
        rw [h, harith]
      · have hf0 : f = 0 := by omega
        subst hf0
        simp [argusLoop, hi]

/-- C6: during startup the controller calls `connect_argus` at most 6
times with a fixed delay between attempts.  If the attempts before index
`N < 6` fail and attempt `N` succeeds, exactly `N + 1` calls occur and the
controller proceeds to display connection; if all 6 attempts fail, exactly
6 calls occur, `start` returns failure, and display connection is never
attempted. -/
theorem spec_c6_startup_retry (outcome : Nat → Bool) (displayOk : Bool) :
    (∀ N, N < ARGUS_CONNECTION_MAX_RETRIES →
      (∀ i, i < N → outcome i = false) → outcome N = true →
      argusPhase outcome = (N + 1, true) ∧
      (start outcome displayOk).2.1 = true) ∧
    ((∀ i, i < ARGUS_CONNECTION_MAX_RETRIES → outcome i = false) →
      argusPhase outcome = (ARGUS_CONNECTION_MAX_RETRIES, false) ∧
      (start outcome displayOk).2.1 = false ∧
      (start outcome displayOk).2.2 = false) := by
  constructor
  · intro N hN hfail hsucc
    have h := argusLoop_success outcome ARGUS_CONNECTION_MAX_RETRIES 0 N
      (Nat.zero_le N) (by omega) (fun j _ hj2 => hfail j hj2) hsucc
    have hphase : argusPhase outcome = (N + 1, true) := h
    exact ⟨hphase, by simp [start, hphase]⟩
  · intro hallfail
    have h := argusLoop_failure outcome ARGUS_CONNECTION_MAX_RETRIES 0
      (by norm_num [ARGUS_CONNECTION_MAX_RETRIES])
      (fun j _ hj2 => hallfail j (by omega))
    have hphase : argusPhase outcome = (ARGUS_CONNECTION_MAX_RETRIES, false) := by
      unfold argusPhase
      rw [h, Nat.zero_add]
    exact ⟨hphase, by simp [start, hphase], by simp [start, hphase]⟩

/-- Witness for C6: failures on attempts 0 and 1 followed by success on
attempt 2 give exactly 3 calls, and the controller goes on to the display. -/
theorem spec_c6_startup_retry_witness :
    argusPhase (fun i => i == 2) = (3, true) ∧
    (start (fun i => i == 2) true).2.1 = true :=
  (spec_c6_startup_retry (fun i => i == 2) true).1 2 (by decide) (by decide)
    (by decide)

/-- `write_temp` hands a packet to the device only on the write branch, and
that packet is the current packet with byte 2 set to the clamped value. -/
lemma write_temp_attempted_some (s : ServiceState) (raw : ℚ) (force : Bool)
    (now : ℚ) (deviceOk : Bool) (p : List Nat)
    (h : (write_temp s raw force now deviceOk).attempted = some p) :
    p = s.packet.set 2 (clampedTemp raw).toNat := by
  simp only [write_temp] at h
  split_ifs at h <;> simp_all

/-- `write_temp` either keeps the packet or sets byte 2 to the clamped
value. -/
lemma write_temp_packet_cases (s : ServiceState) (raw : ℚ) (force : Bool)
    (now : ℚ) (deviceOk : Bool) :
    (write_temp s raw force now deviceOk).state.packet = s.packet ∨
    (write_temp s raw force now deviceOk).state.packet =
      s.packet.set 2 (clampedTemp raw).toNat := by
  simp only [write_temp]
  split_ifs <;> simp

/-- A poll tick leaves the state alone or routes through `write_temp`. -/
lemma update_tick_state_cases (s : ServiceState) (api : ArgusMonitorAPIState)
    (d : ArgusMonitorData) (now : ℚ) (deviceOk : Bool) :
    (update_tick s api d now deviceOk).state = s ∨
    ∃ raw force, (update_tick s api d now deviceOk).state =
      (write_temp s raw force now deviceOk).state := by
  unfold update_tick
  cases hE : get_cpu_temp_raw api d with
  | ok o =>
      cases o with
      | none => left; rfl
      | some raw => right; exact ⟨raw, decide (s.next_mandatory_write_time ≤ now), rfl⟩
  | error e => left; rfl

/-- Invariant of every reachable service state: the packet is the initial
packet (report ID, command byte, zeros) with byte 2 holding some value at
most 99. -/
lemma reachable_packet (s : ServiceState) (h : Reachable s) :
    ∃ v : Nat, v ≤ 99 ∧ s.packet = initPacket.set 2 v := by
  induction h with
  | init => exact ⟨0, by omega, by decide⟩
  | connect s ok _ ih =>
      rcases ih with ⟨v, hv, hp⟩
      refine ⟨v, hv, ?_⟩
      cases ok <;> simpa [connect_display] using hp
  | write s raw force now deviceOk _ ih =>
      rcases ih with ⟨v, hv, hp⟩
      rcases write_temp_packet_cases s raw force now deviceOk with hq | hq
      · exact ⟨v, hv, hq.trans hp⟩
      · refine ⟨(clampedTemp raw).toNat, ?_, ?_⟩
        · have := clampedTemp_le raw
          simp only [TEMP_MAX] at this
          omega
        · rw [hq, hp, List.set_set]
  | tick s api d now deviceOk _ ih =>
      rcases ih with ⟨v, hv, hp⟩
      rcases update_tick_state_cases s api d now deviceOk with hq | ⟨raw, force, hq⟩
      · rw [hq]; exact ⟨v, hv, hp⟩
      · rw [hq]
        rcases write_temp_packet_cases s raw force now deviceOk with hq2 | hq2
        · exact ⟨v, hv, hq2.trans hp⟩
        · refine ⟨(clampedTemp raw).toNat, ?_, ?_⟩
          · have := clampedTemp_le raw
            simp only [TEMP_MAX] at this
            omega
          · rw [hq2, hp, List.set_set]

/-- Bytes 3 and above of the initial packet with any byte 2 are zero. -/
lemma packet_high_bytes (w i : Nat) (h3 : 3 ≤ i) (h65 : i < 65) :
    (initPacket.set 2 w).getD i 0 = 0 := by
  have hne : (2 : Nat) ≠ i := by omega
  rw [List.getD_eq_getElem?_getD, List.getElem?_set_ne hne,
    ← List.getD_eq_getElem?_getD]
  have hall : ∀ j, j < 65 → 3 ≤ j → initPacket.getD j 0 = 0 := by decide
  exact hall i h65 h3

/-- C7: every packet handed to the device write, in any reachable state of
the service, is exactly 65 bytes: byte 0 is the report ID `0x00`, byte 1 is
the command code `0x10`, byte 2 is the clamped temperature (which always
lies in `[0, 99]`), and every remaining byte is zero. -/
theorem spec_c7_packet_shape (s : ServiceState) (hreach : Reachable s)
    (raw : ℚ) (force : Bool) (now : ℚ) (deviceOk : Bool) (p : List Nat)
    (hatt : (write_temp s raw force now deviceOk).attempted = some p) :
    p.length = USB_PACKET_SIZE ∧
    p.getD 0 0 = USB_PACKET_REPORT_ID ∧
    p.getD 1 0 = USB_PACKET_COMMAND ∧
    p.getD 2 0 = (clampedTemp raw).toNat ∧
    TEMP_MIN ≤ clampedTemp raw ∧ clampedTemp raw ≤ TEMP_MAX ∧
    (∀ i, 3 ≤ i → i < USB_PACKET_SIZE → p.getD i 0 = 0) := by
  rcases reachable_packet s hreach with ⟨v, hv, hp⟩
  have hpacket : p = initPacket.set 2 (clampedTemp raw).toNat := by
    rw [write_temp_attempted_some s raw force now deviceOk p hatt, hp,
      List.set_set]
  subst hpacket
  have hlen : (initPacket.set 2 (clampedTemp raw).toNat).length =
      USB_PACKET_SIZE := by
    simp [initPacket, USB_PACKET_SIZE]
  refine ⟨hlen, ?_, ?_, ?_, clampedTemp_nonneg raw, clampedTemp_le raw, ?_⟩
  · rw [List.getD_eq_getElem?_getD,
      List.getElem?_set_ne (by omega : (2 : Nat) ≠ 0)]
    rfl
  · rw [List.getD_eq_getElem?_getD,
      List.getElem?_set_ne (by omega : (2 : Nat) ≠ 1)]
    rfl
  · rw [List.getD_eq_getElem?_getD,
      List.getElem?_set_eq_of_lt _ (by decide : 2 < initPacket.length)]
    rfl
  · intro i h3 h65
    exact packet_high_bytes (clampedTemp raw).toNat i h3 h65

/-- Witness for C7: the first forced write after connecting the display
sends the 65-byte packet with 55 at byte 2. -/
theorem spec_c7_packet_shape_witness :
    (write_temp (connect_display initServiceState true).1 55 true 0
        true).attempted = some (initPacket.set 2 55) ∧
    (initPacket.set 2 55).length = USB_PACKET_SIZE ∧
    (initPacket.set 2 55).getD 2 0 = 55 := by
  have hreach : Reachable (connect_display initServiceState true).1 :=
    Reachable.connect initServiceState true Reachable.init
  have hatt : (write_temp (connect_display initServiceState true).1 55 true 0
      true).attempted = some (initPacket.set 2 55) := by decide
  have h := spec_c7_packet_shape _ hreach 55 true 0 true _ hatt
  refine ⟨hatt, h.1, ?_⟩
  rw [h.2.2.2.1]
  decide

/-- Specialisation of the write branch to a successful device write. -/
lemma write_temp_write_ok (s : ServiceState) (raw : ℚ) (force : Bool)
    (now : ℚ) (hdev : s.deviceConnected = true)
    (hns : ¬(force = false ∧ clampedTemp raw = s.last_temp)) :
    write_temp s raw force now true =
      ⟨{ s with
          last_temp := clampedTemp raw
          packet := s.packet.set 2 (clampedTemp raw).toNat
          next_mandatory_write_time := now + MANDATORY_UPDATE_INTERVAL },
        true, some (s.packet.set 2 (clampedTemp raw).toNat)⟩ := by
  simp [write_temp, hdev, hns]

/-- C1: on a poll tick in the running state with an available raw reading,
the device write is skipped exactly when the tick is not forced and the
clamped value equals the tracked last-written value, where the tick is
forced exactly when the clock has reached `next_mandatory_write_time` (set
to 15 seconds after the last successful write).  In particular a tick at or
past the deadline always attempts a write, and after a successful write a
second tick less than 15 seconds later with the same clamped value attempts
none. -/
theorem spec_c1_debounce_iff (s : ServiceState) (api : ArgusMonitorAPIState)
    (d : ArgusMonitorData) (now : ℚ) (deviceOk : Bool) (raw : ℚ)
    (hdev : s.deviceConnected = true)
    (hget : get_cpu_temp_raw api d = .ok (some raw)) :
    ((update_tick s api d now deviceOk).attempted = none ↔
      (¬ s.next_mandatory_write_time ≤ now ∧ clampedTemp raw = s.last_temp)) ∧
    (s.next_mandatory_write_time ≤ now →
      (update_tick s api d now deviceOk).attempted ≠ none) ∧
    (∀ (api2 : ArgusMonitorAPIState) (d2 : ArgusMonitorData) (raw2 t2 : ℚ)
       (ok2 : Bool),
      deviceOk = true →
      (update_tick s api d now deviceOk).attempted ≠ none →
      get_cpu_temp_raw api2 d2 = .ok (some raw2) →
      clampedTemp raw2 = clampedTemp raw →
      t2 < now + MANDATORY_UPDATE_INTERVAL →
      (update_tick (update_tick s api d now deviceOk).state api2 d2 t2
          ok2).attempted = none) := by
  have hu : update_tick s api d now deviceOk =
      write_temp s raw (decide (s.next_mandatory_write_time ≤ now)) now
        deviceOk := by
    simp only [update_tick, hget]
  refine ⟨?_, ?_, ?_⟩
  · rw [hu, write_temp_attempted_none_iff _ _ _ _ _ hdev,
      decide_eq_false_iff_not]
  · intro hle hnone
    rw [hu, write_temp_attempted_none_iff _ _ _ _ _ hdev,
      decide_eq_false_iff_not] at hnone
    exact hnone.1 hle
  · intro api2 d2 raw2 t2 ok2 hok hatt hget2 hcl ht2
    subst hok
    rw [hu] at hatt ⊢
    have hns : ¬(decide (s.next_mandatory_write_time ≤ now) = false ∧
        clampedTemp raw = s.last_temp) := fun hc =>
      hatt ((write_temp_attempted_none_iff _ _ _ _ _ hdev).mpr hc)
    rw [write_temp_write_ok s raw _ now hdev hns]
    simp only [update_tick, hget2]
    refine (write_temp_attempted_none_iff _ _ _ _ _ ?_).mpr ⟨?_, hcl⟩
    · exact hdev
    · rw [decide_eq_false_iff_not]
      exact not_le.mpr ht2

/-- Witness for C1: a freshly connected display (deadline 0) at clock 100
is past the deadline, so the tick with the available 55 °C reading attempts
a device write. -/
theorem spec_c1_debounce_iff_witness :
    (update_tick (connect_display initServiceState true).1
        (connect_argus regionActiveOne).1 regionActiveOne 100 true).attempted ≠
      none :=
  (spec_c1_debounce_iff (connect_display initServiceState true).1
      (connect_argus regionActiveOne).1 regionActiveOne 100 true 55 (by decide)
      (by rfl)).2.1 (by decide)
